import Mathlib

/-!
Verification of the generic request execution core of the gocardless-pro-go
client SDK (block_service.go and the webhook service file), as described by
its specification: retry policy, idempotency-key handling, response envelope
decoding, and cursor-based pagination.

Pure parts (header construction, query encoding, envelope dispatch, the
paginator state machine) are embedded directly from the Go source.  The HTTP
transport is modelled as a stream of attempt outcomes `Nat → Attempt α`: the
outcome the transport would produce for the first, second, ... round trip of
one call.  Helpers that live elsewhere in the repository (`try`,
`responseErr`, `NewIdempotencyKey`, `requestOptions`, `APIError`, `userAgent`)
are modelled from the specification and are marked as such.
-/

set_option autoImplicit false

namespace Gocardless

/-- Modelled from the spec: the structured `APIError` type (its declaration is
not under src/).  Per the spec's data model it carries a kind/code, a human
message, optional field-level validation errors and an optional request id,
and is immutable once parsed. -/
structure APIError where
  kind : String
  code : Nat
  message : String
  requestId : String
  validationErrors : List (String × String)
  deriving Repr, DecidableEq

/-- The error values a service call can produce in this layer.
`transport` models an error returned by `client.Do`; `httpStatus` models the
error produced by `responseErr` for a non-2xx status; `decodeErr` models a
JSON decoding failure; `api` models a populated `error` variant of the
response envelope (`result.Err`); `missingResult` models
`errors.New("missing result")` from the source. -/
inductive GoErr where
  | transport (msg : String)
  | httpStatus (code : Nat)
  | decodeErr (msg : String)
  | api (e : APIError)
  | missingResult
  deriving Repr, DecidableEq

/-- Whether an error is the decoded API-level error variant (the Go type
assertion `err.(*APIError)`). -/
def GoErr.isAPI : GoErr → Bool
  | GoErr.api _ => true
  | _ => false

/-- The decoded response envelope: the anonymous result struct
`{ Err *APIError; <payload> }` of every service method.  Either field may be
nil, which is what the source checks (`result.Err != nil`,
`result.<payload> == nil`). -/
structure Envelope (α : Type) where
  err : Option APIError
  payload : Option α

/-- One HTTP round trip as seen by the retried closure: either `client.Do`
fails (transport error), or a response with a status code arrives whose body
decodes to an envelope or fails to decode. -/
inductive Attempt (α : Type) where
  | transportFail (msg : String)
  | response (status : Nat) (decoded : Except String (Envelope α))

/-- Modelled from the spec: `responseErr` (not under src/) classifies a non-2xx
HTTP status as an error — per the spec, "a transport-level error (connection
failure) or an HTTP error status triggers a retry up to the limit". -/
def responseErr (status : Nat) : Option GoErr :=
  if 200 ≤ status ∧ status < 300 then none else some (GoErr.httpStatus status)

/-- The closure passed to `try` by every service method and paginator fetch in
the source (identical in all of them): run `client.Do`, check `responseErr`,
decode the body into the envelope, and return `result.Err` when it is
populated; otherwise succeed with the decoded envelope. -/
def attemptOnce {α : Type} (a : Attempt α) : Except GoErr (Envelope α) :=
  match a with
  | Attempt.transportFail msg => Except.error (GoErr.transport msg)
  | Attempt.response status decoded =>
    match responseErr status with
    | some e => Except.error e
    | none =>
      match decoded with
      | Except.error msg => Except.error (GoErr.decodeErr msg)
      | Except.ok env =>
        match env.err with
        | some e => Except.error (GoErr.api e)
        | none => Except.ok env

/-- An attempt outcome that makes the retried closure fail with an error the
retry policy retries (anything except a populated envelope error). -/
def retriable {α : Type} (a : Attempt α) : Bool :=
  match attemptOnce a with
  | Except.error e => !e.isAPI
  | Except.ok _ => false

/-- Modelled from the spec: the shared retry helper `try` (not under src/).
Per the spec, the call "is executed under a retry policy (default 3 attempts
...): each attempt performs the HTTP round trip; a transport-level error
(connection failure) or an HTTP error status triggers a retry up to the
limit; the last error is returned if all attempts are exhausted", while "(c)
decoded API-level error embedded in an otherwise-successful envelope" is "not
retried further by this layer".  `i` is the index of the next attempt, the
second argument the number of attempts left; the result carries the index
after the last attempt consumed, so that `(tryAttempts att 0 n).2` is the
number of round trips issued.  With zero attempts the loop body never runs:
the error stays nil and the shared result struct keeps its zero value. -/
def tryAttempts {α : Type} (att : Nat → Attempt α) : Nat → Nat → Except GoErr (Envelope α) × Nat
  | i, 0 => (Except.ok ⟨none, none⟩, i)
  | i, n + 1 =>
    match attemptOnce (att i) with
    | Except.ok env => (Except.ok env, i + 1)
    | Except.error e =>
      if e.isAPI then (Except.error e, i + 1)
      else if n = 0 then (Except.error e, i + 1)
      else tryAttempts att (i + 1) n

/-- The tail of every service method in the source: run `try`, propagate its
error; otherwise fail with `errors.New("missing result")` when the payload
pointer is nil, and return the payload otherwise.  The second component is
the number of HTTP round trips issued. -/
def runCall {α : Type} (retries : Nat) (att : Nat → Attempt α) : Except GoErr α × Nat :=
  match tryAttempts att 0 retries with
  | (Except.error e, k) => (Except.error e, k)
  | (Except.ok env, k) =>
    match env.payload with
    | none => (Except.error GoErr.missingResult, k)
    | some v => (Except.ok v, k)

theorem retriable_elim {α : Type} (a : Attempt α) (h : retriable a = true) :
    ∃ e, attemptOnce a = Except.error e ∧ e.isAPI = false := by
  unfold retriable at h
  cases hao : attemptOnce a with
  | ok env => rw [hao] at h; cases h
  | error e0 =>
    rw [hao] at h
    exact ⟨e0, rfl, by simpa using h⟩

theorem tryAttempts_api {α : Type} (att : Nat → Attempt α) (e : APIError) :
    ∀ (k i n : Nat), (∀ j, j < k → retriable (att (i + j)) = true) →
      attemptOnce (att (i + k)) = Except.error (GoErr.api e) → k < n →
      tryAttempts att i n = (Except.error (GoErr.api e), i + k + 1) := by
  intro k
  induction k with
  | zero =>
    intro i n _ hk hlt
    obtain ⟨m, rfl⟩ : ∃ m, n = m + 1 := ⟨n - 1, by omega⟩
    simp only [tryAttempts]
    rw [show i + 0 = i from rfl] at hk
    rw [hk]
    simp [GoErr.isAPI]
  | succ k ih =>
    intro i n hpre hk hlt
    obtain ⟨m, rfl⟩ : ∃ m, n = m + 1 := ⟨n - 1, by omega⟩
    obtain ⟨e0, he0, he0api⟩ := retriable_elim (att i) (by simpa using hpre 0 (by omega))
    have hm : ¬ m = 0 := by omega
    simp only [tryAttempts]
    rw [he0]
    show (if e0.isAPI = true then (Except.error e0, i + 1)
        else if m = 0 then (Except.error e0, i + 1) else tryAttempts att (i + 1) m)
        = (Except.error (GoErr.api e), i + (k + 1) + 1)
    rw [if_neg (by rw [he0api]; exact Bool.false_ne_true), if_neg hm]
    have hpre2 : ∀ j, j < k → retriable (att (i + 1 + j)) = true := by
      intro j hj
      have := hpre (j + 1) (by omega)
      rwa [show i + (j + 1) = i + 1 + j by omega] at this
    have hk2 : attemptOnce (att (i + 1 + k)) = Except.error (GoErr.api e) := by
      rwa [show i + (k + 1) = i + 1 + k by omega] at hk
    have harith : i + 1 + k + 1 = i + (k + 1) + 1 := by omega
    rw [ih (i + 1) m hpre2 hk2 (by omega), harith]

theorem tryAttempts_ok_first {α : Type} (att : Nat → Attempt α) (env : Envelope α) (n : Nat)
    (h : attemptOnce (att 0) = Except.ok env) (hn : 1 ≤ n) :
    tryAttempts att 0 n = (Except.ok env, 1) := by
  obtain ⟨m, rfl⟩ : ∃ m, n = m + 1 := ⟨n - 1, by omega⟩
  simp only [tryAttempts]
  rw [h]

theorem runCall_api {α : Type} (att : Nat → Attempt α) (retries k : Nat) (e : APIError)
    (hpre : ∀ j, j < k → retriable (att j) = true)
    (hk : attemptOnce (att k) = Except.error (GoErr.api e))
    (hlt : k < retries) :
    runCall retries att = (Except.error (GoErr.api e), k + 1) := by
  unfold runCall
  rw [tryAttempts_api att e k 0 retries (by simpa using hpre) (by simpa using hk) hlt]
  simp

theorem runCall_missing_first {α : Type} (att : Nat → Attempt α) (retries : Nat)
    (h : attemptOnce (att 0) = Except.ok ⟨none, none⟩) (hr : 1 ≤ retries) :
    runCall retries att = (Except.error GoErr.missingResult, 1) := by
  unfold runCall
  rw [tryAttempts_ok_first att ⟨none, none⟩ retries h hr]

theorem attemptOnce_200_apiErr {α : Type} (env : Envelope α) (e : APIError)
    (h : env.err = some e) :
    attemptOnce (Attempt.response 200 (Except.ok env)) = Except.error (GoErr.api e) := by
  simp [attemptOnce, responseErr, h]

/-! ### Headers and requests

`http.Header` is a map; `Header.Set` replaces the value stored under a name.
We model the header map as an association list where `setHeader` removes any
previous binding of the name and adds the new one, and `headerGet` looks the
name up. -/

def headerGet (hs : List (String × String)) (k : String) : Option String :=
  match hs.find? (fun kv => kv.1 == k) with
  | some kv => some kv.2
  | none => none

/-- `req.Header.Set(k, v)`: replace any existing value of `k` by `v`. -/
def setHeader (hs : List (String × String)) (k v : String) : List (String × String) :=
  (k, v) :: hs.filter (fun kv => !(kv.1 == k))

/-- The loop `for key, value := range o.headers { req.Header.Set(key, value) }`
that every service method runs after setting the standard headers. -/
def applyOverrides (hs : List (String × String)) (ov : List (String × String)) :
    List (String × String) :=
  ov.foldl (fun acc kv => setHeader acc kv.1 kv.2) hs

/-- Modelled from the spec: the user agent identifier `userAgent` (its
definition is not under src/). -/
def userAgent : String := "gocardless-pro-go/1.0.0"

/-- The standard headers set by every service method, in source order:
authorization, API version, the two client identification headers and the
user agent. -/
def baseHeaders (token : String) : List (String × String) :=
  setHeader (setHeader (setHeader (setHeader (setHeader []
    "Authorization" ("Bearer " ++ token))
    "GoCardless-Version" "2015-07-06")
    "GoCardless-Client-Library" "<no value>")
    "GoCardless-Client-Version" "1.0.0")
    "User-Agent" userAgent

/-- The headers set by the write methods (Create, Disable, Enable, BlockByRef,
Retry): the standard headers plus `Content-Type` and `Idempotency-Key`. -/
def writeHeaders (token idem : String) : List (String × String) :=
  setHeader (setHeader (baseHeaders token)
    "Content-Type" "application/json")
    "Idempotency-Key" idem

/-- The headers set by the paginator fetch (`Value`), in source order: only
the authorization and API version headers. -/
def pagingHeaders (token : String) : List (String × String) :=
  setHeader (setHeader []
    "Authorization" ("Bearer " ++ token))
    "GoCardless-Version" "2015-07-06"

/-- An HTTP request as built by this layer.  `ctx` is the context attached to
the request: `http.NewRequest` attaches the background context (`none`), and
`Request.withContext` would attach a caller context.  `bodyKey` is the single
top-level JSON key wrapping the body payload, when a body is sent. -/
structure Request where
  method : String
  url : String
  query : List (String × String)
  ctx : Option Nat
  headers : List (String × String)
  bodyKey : Option String
  deriving Repr, DecidableEq

/-- `(*http.Request).WithContext(ctx)`: returns a shallow copy of the request
with its context replaced.  It does not modify the receiver. -/
def Request.withContext (r : Request) (ctx : Nat) : Request :=
  { r with ctx := some ctx }

def Request.getHeader (r : Request) (k : String) : Option String :=
  headerGet r.headers k

/-- The request built by the read-style methods (Get, List): `http.NewRequest`
(background context), `req.WithContext(ctx)` with the returned request
discarded exactly as in the source, the standard headers, then the caller's
header overrides. -/
def mkReadRequest (method url token : String) (q : List (String × String))
    (ctx : Nat) (overrides : List (String × String)) : Request :=
  let req : Request := ⟨method, url, q, none, [], none⟩
  let _ := req.withContext ctx
  { req with headers := applyOverrides (baseHeaders token) overrides }

/-- The request built by the write-style methods (Create, Disable, Enable,
BlockByRef, Retry): like `mkReadRequest` but with the write headers and an
optional JSON body wrapped under `bodyKey`. -/
def mkWriteRequest (method url token idem : String) (q : List (String × String))
    (bodyKey : Option String) (ctx : Nat) (overrides : List (String × String)) : Request :=
  let req : Request := ⟨method, url, q, none, [], bodyKey⟩
  let _ := req.withContext ctx
  { req with headers := applyOverrides (writeHeaders token idem) overrides }

/-- The request built by the paginator fetch (`Value`): a GET with the list
query, `req.WithContext(ctx)` discarded as in the source, and only the
authorization and API version headers — no client identification, no user
agent, and no header overrides. -/
def mkPagingRequest (url token : String) (q : List (String × String)) (ctx : Nat) : Request :=
  let req : Request := ⟨"GET", url, q, none, [], none⟩
  let _ := req.withContext ctx
  { req with headers := pagingHeaders token }

/-! ### Resource data model (from src/block_service.go and the webhook file) -/

/-- The `Block` model. -/
structure Block where
  Active : Bool
  BlockType : String
  CreatedAt : String
  Id : String
  ReasonDescription : String
  ReasonType : String
  ResourceReference : String
  UpdatedAt : String
  deriving Repr, DecidableEq

/-- `BlockCreateParams`. -/
structure BlockCreateParams where
  Active : Bool
  BlockType : String
  ReasonDescription : String
  ReasonType : String
  ResourceReference : String
  deriving Repr, DecidableEq

/-- `BlockListParams`. -/
structure BlockListParams where
  After : String
  Before : String
  Block : String
  BlockType : String
  CreatedAt : String
  Limit : Int
  ReasonType : String
  UpdatedAt : String
  deriving Repr, DecidableEq

/-- The `meta.cursors` block of a list response. -/
structure Cursors where
  After : String
  Before : String
  deriving Repr, DecidableEq

/-- The `meta` block of a list response. -/
structure ListMeta where
  Cursors : Cursors
  Limit : Int
  deriving Repr, DecidableEq

/-- `BlockListResult`. -/
structure BlockListResult where
  Blocks : List Block
  Meta : ListMeta
  deriving Repr, DecidableEq

/-- `BlockBlockByRefParams`. -/
structure BlockBlockByRefParams where
  Active : Bool
  ReasonDescription : String
  ReasonType : String
  ReferenceType : String
  ReferenceValue : String
  deriving Repr, DecidableEq

/-- `BlockBlockByRefResult` (its anonymous inner block struct has exactly the
fields of `Block`). -/
structure BlockBlockByRefResult where
  Blocks : List Block
  Meta : ListMeta
  deriving Repr, DecidableEq

/-- The `Webhook` model.  The Go `map[string]interface{}` header fields are
modelled as association lists. -/
structure Webhook where
  CreatedAt : String
  Id : String
  IsTest : Bool
  RequestBody : String
  RequestHeaders : List (String × String)
  ResponseBody : String
  ResponseBodyTruncated : Bool
  ResponseCode : Int
  ResponseHeaders : List (String × String)
  ResponseHeadersContentTruncated : Bool
  ResponseHeadersCountTruncated : Bool
  Successful : Bool
  Url : String
  deriving Repr, DecidableEq

/-- The anonymous `CreatedAt` range-filter struct of `WebhookListParams`. -/
structure CreatedAtFilter where
  Gt : String
  Gte : String
  Lt : String
  Lte : String
  deriving Repr, DecidableEq

/-- `WebhookListParams`. -/
structure WebhookListParams where
  After : String
  Before : String
  CreatedAt : CreatedAtFilter
  IsTest : Bool
  Limit : Int
  Successful : Bool
  deriving Repr, DecidableEq

/-- `WebhookListResult`. -/
structure WebhookListResult where
  Webhooks : List Webhook
  Meta : ListMeta
  deriving Repr, DecidableEq

/-- `query.Values` for `BlockListParams`: each field is URL-encoded under its
`url` tag and omitted when equal to its zero value (`omitempty`), in struct
field order. -/
def BlockListParams.queryValues (p : BlockListParams) : List (String × String) :=
  (if p.After = "" then [] else [("after", p.After)]) ++
  (if p.Before = "" then [] else [("before", p.Before)]) ++
  (if p.Block = "" then [] else [("block", p.Block)]) ++
  (if p.BlockType = "" then [] else [("block_type", p.BlockType)]) ++
  (if p.CreatedAt = "" then [] else [("created_at", p.CreatedAt)]) ++
  (if p.Limit = 0 then [] else [("limit", toString p.Limit)]) ++
  (if p.ReasonType = "" then [] else [("reason_type", p.ReasonType)]) ++
  (if p.UpdatedAt = "" then [] else [("updated_at", p.UpdatedAt)])

/-- `query.Values` for `WebhookListParams`: the nested `created_at` struct is
scoped with bracket notation, each leaf field `omitempty`. -/
def WebhookListParams.queryValues (p : WebhookListParams) : List (String × String) :=
  (if p.After = "" then [] else [("after", p.After)]) ++
  (if p.Before = "" then [] else [("before", p.Before)]) ++
  (if p.CreatedAt.Gt = "" then [] else [("created_at[gt]", p.CreatedAt.Gt)]) ++
  (if p.CreatedAt.Gte = "" then [] else [("created_at[gte]", p.CreatedAt.Gte)]) ++
  (if p.CreatedAt.Lt = "" then [] else [("created_at[lt]", p.CreatedAt.Lt)]) ++
  (if p.CreatedAt.Lte = "" then [] else [("created_at[lte]", p.CreatedAt.Lte)]) ++
  (if p.IsTest then [("is_test", "true")] else []) ++
  (if p.Limit = 0 then [] else [("limit", toString p.Limit)]) ++
  (if p.Successful then [("successful", "true")] else [])

/-! ### Services -/

/-- `BlockService`: endpoint and token (the injected `*http.Client` is
represented by the attempt stream each call takes). -/
structure BlockService where
  endpoint : String
  token : String
  deriving Repr, DecidableEq

/-- `WebhookService`. -/
structure WebhookService where
  endpoint : String
  token : String
  deriving Repr, DecidableEq

/-- Modelled from the spec: the per-call options struct `requestOptions` (its
declaration and the functional option constructors are not under src/).  Per
the spec a call carries "a retry count", "a set of header overrides" and "an
optional idempotency key"; a service method receives the already-folded
options.  The source initialises it as `&requestOptions{retries: 3}`. -/
structure requestOptions where
  retries : Nat
  headers : List (String × String)
  idempotencyKey : String
  deriving Repr, DecidableEq

/-- The default options every method starts from: `&requestOptions{retries: 3}`
with zero values for the other fields. -/
def defaultRequestOptions : requestOptions :=
  { retries := 3, headers := [], idempotencyKey := "" }

/-- The outcome of one service call: the decoded result or error, the number
of HTTP round trips issued, the request the method built, and the requests
actually issued (the same request object re-sent on every attempt). -/
structure CallResult (α : Type) where
  result : Except GoErr α
  attemptsUsed : Nat
  request : Request
  requests : List Request

/-- `BlockService.Create`: POST `/blocks` with the params wrapped under the
`"blocks"` JSON key.  `genKey` is the value `NewIdempotencyKey()` returns for
this call (modelled from the spec as an oracle-supplied fresh token); it is
used only when the caller supplied no key, and it is computed before the
request is built, exactly as in the source. -/
def BlockService.Create (s : BlockService) (ctx : Nat) (p : BlockCreateParams)
    (o : requestOptions) (genKey : String) (att : Nat → Attempt Block) : CallResult Block :=
  let idem := if o.idempotencyKey = "" then genKey else o.idempotencyKey
  let req := mkWriteRequest "POST" (s.endpoint ++ "/blocks") s.token idem []
    (some "blocks") ctx o.headers
  { result := (runCall o.retries att).1
    attemptsUsed := (runCall o.retries att).2
    request := req
    requests := List.replicate (runCall o.retries att).2 req }

/-- `BlockService.Get`: GET `/blocks/{identity}`. -/
def BlockService.Get (s : BlockService) (ctx : Nat) (identity : String)
    (o : requestOptions) (att : Nat → Attempt Block) : CallResult Block :=
  let req := mkReadRequest "GET" (s.endpoint ++ "/blocks/" ++ identity) s.token [] ctx o.headers
  { result := (runCall o.retries att).1
    attemptsUsed := (runCall o.retries att).2
    request := req
    requests := List.replicate (runCall o.retries att).2 req }

/-- `BlockService.List`: GET `/blocks` with the encoded list params as query. -/
def BlockService.List (s : BlockService) (ctx : Nat) (p : BlockListParams)
    (o : requestOptions) (att : Nat → Attempt BlockListResult) : CallResult BlockListResult :=
  let req := mkReadRequest "GET" (s.endpoint ++ "/blocks") s.token p.queryValues ctx o.headers
  { result := (runCall o.retries att).1
    attemptsUsed := (runCall o.retries att).2
    request := req
    requests := List.replicate (runCall o.retries att).2 req }

/-- `BlockService.Disable`: POST `/blocks/{identity}/actions/disable` (write
headers, no body). -/
def BlockService.Disable (s : BlockService) (ctx : Nat) (identity : String)
    (o : requestOptions) (genKey : String) (att : Nat → Attempt Block) : CallResult Block :=
  let idem := if o.idempotencyKey = "" then genKey else o.idempotencyKey
  let req := mkWriteRequest "POST" (s.endpoint ++ "/blocks/" ++ identity ++ "/actions/disable")
    s.token idem [] none ctx o.headers
  { result := (runCall o.retries att).1
    attemptsUsed := (runCall o.retries att).2
    request := req
    requests := List.replicate (runCall o.retries att).2 req }

/-- `BlockService.Enable`: POST `/blocks/{identity}/actions/enable`. -/
def BlockService.Enable (s : BlockService) (ctx : Nat) (identity : String)
    (o : requestOptions) (genKey : String) (att : Nat → Attempt Block) : CallResult Block :=
  let idem := if o.idempotencyKey = "" then genKey else o.idempotencyKey
  let req := mkWriteRequest "POST" (s.endpoint ++ "/blocks/" ++ identity ++ "/actions/enable")
    s.token idem [] none ctx o.headers
  { result := (runCall o.retries att).1
    attemptsUsed := (runCall o.retries att).2
    request := req
    requests := List.replicate (runCall o.retries att).2 req }

/-- `BlockService.BlockByRef`: POST `/block_by_ref` with the params wrapped
under the `"data"` JSON key. -/
def BlockService.BlockByRef (s : BlockService) (ctx : Nat) (p : BlockBlockByRefParams)
    (o : requestOptions) (genKey : String) (att : Nat → Attempt BlockBlockByRefResult) :
    CallResult BlockBlockByRefResult :=
  let idem := if o.idempotencyKey = "" then genKey else o.idempotencyKey
  let req := mkWriteRequest "POST" (s.endpoint ++ "/block_by_ref") s.token idem []
    (some "data") ctx o.headers
  { result := (runCall o.retries att).1
    attemptsUsed := (runCall o.retries att).2
    request := req
    requests := List.replicate (runCall o.retries att).2 req }

/-- `WebhookService.List`: GET `/webhooks` with the encoded list params. -/
def WebhookService.List (s : WebhookService) (ctx : Nat) (p : WebhookListParams)
    (o : requestOptions) (att : Nat → Attempt WebhookListResult) : CallResult WebhookListResult :=
  let req := mkReadRequest "GET" (s.endpoint ++ "/webhooks") s.token p.queryValues ctx o.headers
  { result := (runCall o.retries att).1
    attemptsUsed := (runCall o.retries att).2
    request := req
    requests := List.replicate (runCall o.retries att).2 req }

/-- `WebhookService.Get`: GET `/webhooks/{identity}`. -/
def WebhookService.Get (s : WebhookService) (ctx : Nat) (identity : String)
    (o : requestOptions) (att : Nat → Attempt Webhook) : CallResult Webhook :=
  let req := mkReadRequest "GET" (s.endpoint ++ "/webhooks/" ++ identity) s.token [] ctx o.headers
  { result := (runCall o.retries att).1
    attemptsUsed := (runCall o.retries att).2
    request := req
    requests := List.replicate (runCall o.retries att).2 req }

/-- `WebhookService.Retry`: POST `/webhooks/{identity}/actions/retry`. -/
def WebhookService.Retry (s : WebhookService) (ctx : Nat) (identity : String)
    (o : requestOptions) (genKey : String) (att : Nat → Attempt Webhook) : CallResult Webhook :=
  let idem := if o.idempotencyKey = "" then genKey else o.idempotencyKey
  let req := mkWriteRequest "POST" (s.endpoint ++ "/webhooks/" ++ identity ++ "/actions/retry")
    s.token idem [] none ctx o.headers
  { result := (runCall o.retries att).1
    attemptsUsed := (runCall o.retries att).2
    request := req
    requests := List.replicate (runCall o.retries att).2 req }

/-! ### Cursor paginators -/

/-- `BlockListPagingIterator`: cursor, last response, the base list params,
and the owning service. -/
structure BlockListPagingIterator where
  cursor : String
  response : Option BlockListResult
  params : BlockListParams
  service : BlockService
  deriving Repr, DecidableEq

/-- `WebhookListPagingIterator`. -/
structure WebhookListPagingIterator where
  cursor : String
  response : Option WebhookListResult
  params : WebhookListParams
  service : WebhookService
  deriving Repr, DecidableEq

/-- `BlockListPagingIterator.Next`: `if c.cursor == "" && c.response != nil
{ return false }; return true`. -/
def BlockListPagingIterator.Next (c : BlockListPagingIterator) : Bool :=
  if c.cursor = "" ∧ c.response.isSome then false else true

/-- `WebhookListPagingIterator.Next`. -/
def WebhookListPagingIterator.Next (c : WebhookListPagingIterator) : Bool :=
  if c.cursor = "" ∧ c.response.isSome then false else true

/-- The outcome of one paginator fetch: the returned page (or nil), the
returned error (or nil), the iterator state after the call, and the requests
issued (the same request re-sent on every attempt of the one `try` call). -/
structure PageFetch (ρ ι : Type) where
  page : Option ρ
  err : Option GoErr
  iter : ι
  requests : List Request
  deriving Repr, DecidableEq

/-- `BlockListPagingIterator.Value`: if `!c.Next()` return the cached page
with a nil error and issue nothing; otherwise copy the base params, overwrite
`After` with the current cursor, build the paging request, run `try(3, ...)`,
return any error with the iterator unchanged, and on success store the page,
advance the cursor to the response's `meta.cursors.after` and return it. -/
def BlockListPagingIterator.Value (c : BlockListPagingIterator) (ctx : Nat)
    (att : Nat → Attempt BlockListResult) : PageFetch BlockListResult BlockListPagingIterator :=
  if c.Next = false then ⟨c.response, none, c, []⟩
  else
    let p := { c.params with After := c.cursor }
    let req := mkPagingRequest (c.service.endpoint ++ "/blocks") c.service.token p.queryValues ctx
    match runCall 3 att with
    | (Except.error e, k) => ⟨none, some e, c, List.replicate k req⟩
    | (Except.ok r, k) =>
      ⟨some r, none, { c with response := some r, cursor := r.Meta.Cursors.After },
        List.replicate k req⟩

/-- `WebhookListPagingIterator.Value`. -/
def WebhookListPagingIterator.Value (c : WebhookListPagingIterator) (ctx : Nat)
    (att : Nat → Attempt WebhookListResult) : PageFetch WebhookListResult WebhookListPagingIterator :=
  if c.Next = false then ⟨c.response, none, c, []⟩
  else
    let p := { c.params with After := c.cursor }
    let req := mkPagingRequest (c.service.endpoint ++ "/webhooks") c.service.token p.queryValues ctx
    match runCall 3 att with
    | (Except.error e, k) => ⟨none, some e, c, List.replicate k req⟩
    | (Except.ok r, k) =>
      ⟨some r, none, { c with response := some r, cursor := r.Meta.Cursors.After },
        List.replicate k req⟩

/-- `BlockService.All`: a pure constructor — it performs no HTTP request and
returns the iterator with Go zero values for `cursor` (empty string) and
`response` (nil); the `ctx` argument is unused, as in the source. -/
def BlockService.All (s : BlockService) (ctx : Nat) (p : BlockListParams) :
    BlockListPagingIterator :=
  { cursor := "", response := none, params := p, service := s }

/-- `WebhookService.All`. -/
def WebhookService.All (s : WebhookService) (ctx : Nat) (p : WebhookListParams) :
    WebhookListPagingIterator :=
  { cursor := "", response := none, params := p, service := s }

/-! ### Header lemmas -/

theorem headerGet_setHeader_same (hs : List (String × String)) (k v : String) :
    headerGet (setHeader hs k v) k = some v := by
  simp [headerGet, setHeader, List.find?]

theorem find_filter_other (hs : List (String × String)) (k k2 : String) (h : ¬ k = k2) :
    List.find? (fun kv => kv.1 == k) (List.filter (fun kv => !(kv.1 == k2)) hs) =
      List.find? (fun kv => kv.1 == k) hs := by
  induction hs with
  | nil => rfl
  | cons a t ih =>
    have hfk : (k == k2) = false := beq_eq_false_iff_ne.mpr h
    have hkk : (k2 == k) = false := beq_eq_false_iff_ne.mpr (fun he => h he.symm)
    by_cases ha : a.1 = k
    · simp [List.filter, List.find?, ha, hfk]
    · have hak : (a.1 == k) = false := beq_eq_false_iff_ne.mpr ha
      by_cases hb : a.1 = k2
      · simp [List.filter, List.find?, hb, hak, hkk, ih]
      · have hbk : (a.1 == k2) = false := beq_eq_false_iff_ne.mpr hb
        simp [List.filter, List.find?, hbk, hak, ih]

theorem headerGet_setHeader_other (hs : List (String × String)) (k k2 v : String)
    (h : ¬ k = k2) :
    headerGet (setHeader hs k2 v) k = headerGet hs k := by
  have hne : (k2 == k) = false := beq_eq_false_iff_ne.mpr (fun he => h he.symm)
  simp only [headerGet, setHeader, List.find?, hne]
  rw [find_filter_other hs k k2 h]

theorem headerGet_setHeader_isSome (hs : List (String × String)) (k k2 v : String)
    (h : (headerGet hs k).isSome = true) :
    (headerGet (setHeader hs k2 v) k).isSome = true := by
  by_cases he : k = k2
  · subst he; rw [headerGet_setHeader_same]; rfl
  · rw [headerGet_setHeader_other hs k k2 v he]; exact h

theorem headerGet_applyOverrides_isSome (ov : List (String × String))
    (hs : List (String × String)) (k : String) (h : (headerGet hs k).isSome = true) :
    (headerGet (applyOverrides hs ov) k).isSome = true := by
  induction ov generalizing hs with
  | nil => exact h
  | cons a t ih =>
    simp only [applyOverrides, List.foldl] at *
    exact ih (setHeader hs a.1 a.2) (headerGet_setHeader_isSome hs k a.1 a.2 h)

theorem headerGet_applyOverrides_untouched (ov : List (String × String))
    (hs : List (String × String)) (k : String) (h : ∀ kv, kv ∈ ov → ¬ k = kv.1) :
    headerGet (applyOverrides hs ov) k = headerGet hs k := by
  induction ov generalizing hs with
  | nil => rfl
  | cons a t ih =>
    simp only [applyOverrides, List.foldl] at *
    rw [ih (setHeader hs a.1 a.2) (fun kv hkv => h kv (List.mem_cons_of_mem a hkv)),
      headerGet_setHeader_other hs k a.1 a.2 (h a (List.mem_cons_self a t))]

/-! ### Paginator fetch lemmas -/

theorem blockValue_runCall_error (c : BlockListPagingIterator) (ctx : Nat)
    (att : Nat → Attempt BlockListResult) (e : GoErr) (k : Nat)
    (hn : c.Next = true) (hr : runCall 3 att = (Except.error e, k)) :
    c.Value ctx att = ⟨none, some e, c,
      List.replicate k (mkPagingRequest (c.service.endpoint ++ "/blocks") c.service.token
        ({ c.params with After := c.cursor } : BlockListParams).queryValues ctx)⟩ := by
  rw [BlockListPagingIterator.Value, if_neg (by rw [hn]; decide), hr]

theorem blockValue_runCall_ok (c : BlockListPagingIterator) (ctx : Nat)
    (att : Nat → Attempt BlockListResult) (r : BlockListResult) (k : Nat)
    (hn : c.Next = true) (hr : runCall 3 att = (Except.ok r, k)) :
    c.Value ctx att = ⟨some r, none,
      { c with response := some r, cursor := r.Meta.Cursors.After },
      List.replicate k (mkPagingRequest (c.service.endpoint ++ "/blocks") c.service.token
        ({ c.params with After := c.cursor } : BlockListParams).queryValues ctx)⟩ := by
  rw [BlockListPagingIterator.Value, if_neg (by rw [hn]; decide), hr]

theorem webhookValue_runCall_error (c : WebhookListPagingIterator) (ctx : Nat)
    (att : Nat → Attempt WebhookListResult) (e : GoErr) (k : Nat)
    (hn : c.Next = true) (hr : runCall 3 att = (Except.error e, k)) :
    c.Value ctx att = ⟨none, some e, c,
      List.replicate k (mkPagingRequest (c.service.endpoint ++ "/webhooks") c.service.token
        ({ c.params with After := c.cursor } : WebhookListParams).queryValues ctx)⟩ := by
  rw [WebhookListPagingIterator.Value, if_neg (by rw [hn]; decide), hr]

theorem webhookValue_runCall_ok (c : WebhookListPagingIterator) (ctx : Nat)
    (att : Nat → Attempt WebhookListResult) (r : WebhookListResult) (k : Nat)
    (hn : c.Next = true) (hr : runCall 3 att = (Except.ok r, k)) :
    c.Value ctx att = ⟨some r, none,
      { c with response := some r, cursor := r.Meta.Cursors.After },
      List.replicate k (mkPagingRequest (c.service.endpoint ++ "/webhooks") c.service.token
        ({ c.params with After := c.cursor } : WebhookListParams).queryValues ctx)⟩ := by
  rw [WebhookListPagingIterator.Value, if_neg (by rw [hn]; decide), hr]

/-! ### Concrete sample values used by the witnesses -/

def apiErrFix : APIError := ⟨"validation_failed", 422, "boom", "req-1", []⟩

def blockSvcFix : BlockService := ⟨"ep", "tok"⟩

def webhookSvcFix : WebhookService := ⟨"ep", "tok"⟩

def blockZero : Block := ⟨false, "", "", "", "", "", "", ""⟩

def blockCreateParamsZero : BlockCreateParams := ⟨false, "", "", "", ""⟩

def blockListParamsZero : BlockListParams := ⟨"", "", "", "", "", 0, "", ""⟩

def blockByRefParamsZero : BlockBlockByRefParams := ⟨false, "", "", "", ""⟩

def webhookZero : Webhook := ⟨"", "", false, "", [], "", false, 0, [], false, false, false, ""⟩

def webhookListParamsZero : WebhookListParams := ⟨"", "", ⟨"", "", "", ""⟩, false, 0, false⟩

def listMetaFix : ListMeta := ⟨⟨"", ""⟩, 0⟩

def blockListResFix : BlockListResult := ⟨[], listMetaFix⟩

def webhookListResFix : WebhookListResult := ⟨[], listMetaFix⟩

def byRefResFix : BlockBlockByRefResult := ⟨[], listMetaFix⟩

def attFailBL : Nat → Attempt BlockListResult := fun _ => Attempt.transportFail "conn"

def attFailWL : Nat → Attempt WebhookListResult := fun _ => Attempt.transportFail "conn"

def attApiB : Nat → Attempt Block :=
  fun _ => Attempt.response 200 (Except.ok ⟨some apiErrFix, none⟩)

def attApiBL : Nat → Attempt BlockListResult :=
  fun _ => Attempt.response 200 (Except.ok ⟨some apiErrFix, none⟩)

def attApiW : Nat → Attempt Webhook :=
  fun _ => Attempt.response 200 (Except.ok ⟨some apiErrFix, none⟩)

def attApiWL : Nat → Attempt WebhookListResult :=
  fun _ => Attempt.response 200 (Except.ok ⟨some apiErrFix, none⟩)

def attApiBR : Nat → Attempt BlockBlockByRefResult :=
  fun _ => Attempt.response 200 (Except.ok ⟨some apiErrFix, none⟩)

def attApiPayB : Nat → Attempt Block :=
  fun _ => Attempt.response 200 (Except.ok ⟨some apiErrFix, some blockZero⟩)

def attApiPayBL : Nat → Attempt BlockListResult :=
  fun _ => Attempt.response 200 (Except.ok ⟨some apiErrFix, some blockListResFix⟩)

def attApiPayW : Nat → Attempt Webhook :=
  fun _ => Attempt.response 200 (Except.ok ⟨some apiErrFix, some webhookZero⟩)

def attApiPayWL : Nat → Attempt WebhookListResult :=
  fun _ => Attempt.response 200 (Except.ok ⟨some apiErrFix, some webhookListResFix⟩)

def attApiPayBR : Nat → Attempt BlockBlockByRefResult :=
  fun _ => Attempt.response 200 (Except.ok ⟨some apiErrFix, some byRefResFix⟩)

def attEmptyB : Nat → Attempt Block :=
  fun _ => Attempt.response 200 (Except.ok ⟨none, none⟩)

def attEmptyBL : Nat → Attempt BlockListResult :=
  fun _ => Attempt.response 200 (Except.ok ⟨none, none⟩)

def attEmptyW : Nat → Attempt Webhook :=
  fun _ => Attempt.response 200 (Except.ok ⟨none, none⟩)

def attEmptyWL : Nat → Attempt WebhookListResult :=
  fun _ => Attempt.response 200 (Except.ok ⟨none, none⟩)

def attEmptyBR : Nat → Attempt BlockBlockByRefResult :=
  fun _ => Attempt.response 200 (Except.ok ⟨none, none⟩)

def freshBlockIter : BlockListPagingIterator := blockSvcFix.All 0 blockListParamsZero

def freshWebhookIter : WebhookListPagingIterator := webhookSvcFix.All 0 webhookListParamsZero

def exhaustedBlockIter : BlockListPagingIterator :=
  ⟨"", some blockListResFix, blockListParamsZero, blockSvcFix⟩

def exhaustedWebhookIter : WebhookListPagingIterator :=
  ⟨"", some webhookListResFix, webhookListParamsZero, webhookSvcFix⟩

/-! ### Claims -/

/-- C2: for every paginator state (for both generated paginators), the
has-next check `Next` returns `true` exactly when no page has been fetched
yet (`response` is nil) or the last fetched cursor is non-empty; it returns
`false` only when at least one page has been fetched and the stored cursor is
the empty string. -/
theorem next_true_iff_fresh_or_nonempty_cursor :
    (∀ c : BlockListPagingIterator,
      c.Next = true ↔ (c.response = none ∨ ¬ c.cursor = "")) ∧
    (∀ c : WebhookListPagingIterator,
      c.Next = true ↔ (c.response = none ∨ ¬ c.cursor = "")) := by
  constructor
  · intro c
    rw [BlockListPagingIterator.Next]
    by_cases h1 : c.cursor = ""
    · cases hres : c.response with
      | none => simp [h1, hres]
      | some r => simp [h1, hres]
    · simp [h1]
  · intro c
    rw [WebhookListPagingIterator.Next]
    by_cases h1 : c.cursor = ""
    · cases hres : c.response with
      | none => simp [h1, hres]
      | some r => simp [h1, hres]
    · simp [h1]

/-- C3: for both paginators, in the exhausted state (a page has been fetched,
so `response = some r`, and the stored cursor is empty) every further `Value`
call returns the cached page with a nil error, leaves the iterator unchanged
and issues no HTTP request. -/
theorem exhausted_value_returns_cached_page :
    (∀ (c : BlockListPagingIterator) (r : BlockListResult) (ctx : Nat)
        (att : Nat → Attempt BlockListResult),
      c.cursor = "" → c.response = some r →
      c.Value ctx att = ⟨some r, none, c, []⟩) ∧
    (∀ (c : WebhookListPagingIterator) (r : WebhookListResult) (ctx : Nat)
        (att : Nat → Attempt WebhookListResult),
      c.cursor = "" → c.response = some r →
      c.Value ctx att = ⟨some r, none, c, []⟩) := by
  constructor
  · intro c r ctx att h1 h2
    have hn : c.Next = false := by simp [BlockListPagingIterator.Next, h1, h2]
    rw [BlockListPagingIterator.Value, if_pos hn, h2]
  · intro c r ctx att h1 h2
    have hn : c.Next = false := by simp [WebhookListPagingIterator.Next, h1, h2]
    rw [WebhookListPagingIterator.Value, if_pos hn, h2]

/-- C3 witness: a concrete exhausted block iterator re-returns its cached
page with no error and no issued request, and likewise for webhooks. -/
theorem exhausted_value_returns_cached_page_witness :
    exhaustedBlockIter.Value 0 attFailBL = ⟨some blockListResFix, none, exhaustedBlockIter, []⟩ ∧
    exhaustedWebhookIter.Value 0 attFailWL =
      ⟨some webhookListResFix, none, exhaustedWebhookIter, []⟩ :=
  ⟨exhausted_value_returns_cached_page.1 exhaustedBlockIter blockListResFix 0 attFailBL rfl rfl,
    exhausted_value_returns_cached_page.2 exhaustedWebhookIter webhookListResFix 0 attFailWL
      rfl rfl⟩

/-- C9: for both paginators, every context and every transport behavior, if
`Value` returns a non-nil error the iterator is exactly as it was before the
call (cursor, cached response, params, service all unchanged), and the stored
base list params are never mutated by any `Value` call, erroring or not. -/
theorem value_error_leaves_iterator_unchanged :
    (∀ (c : BlockListPagingIterator) (ctx : Nat) (att : Nat → Attempt BlockListResult),
      (¬ (c.Value ctx att).err = none → (c.Value ctx att).iter = c) ∧
      (c.Value ctx att).iter.params = c.params) ∧
    (∀ (c : WebhookListPagingIterator) (ctx : Nat) (att : Nat → Attempt WebhookListResult),
      (¬ (c.Value ctx att).err = none → (c.Value ctx att).iter = c) ∧
      (c.Value ctx att).iter.params = c.params) := by
  constructor
  · intro c ctx att
    by_cases hn : c.Next = false
    · rw [BlockListPagingIterator.Value, if_pos hn]
      exact ⟨fun h => absurd rfl h, rfl⟩
    · have hn2 : c.Next = true := by
        cases hcn : c.Next
        · exact absurd hcn hn
        · rfl
      rcases hrc : runCall 3 att with ⟨res, k⟩
      cases res with
      | error e =>
        rw [blockValue_runCall_error c ctx att e k hn2 hrc]
        exact ⟨fun _ => rfl, rfl⟩
      | ok r =>
        rw [blockValue_runCall_ok c ctx att r k hn2 hrc]
        exact ⟨fun h => absurd rfl h, rfl⟩
  · intro c ctx att
    by_cases hn : c.Next = false
    · rw [WebhookListPagingIterator.Value, if_pos hn]
      exact ⟨fun h => absurd rfl h, rfl⟩
    · have hn2 : c.Next = true := by
        cases hcn : c.Next
        · exact absurd hcn hn
        · rfl
      rcases hrc : runCall 3 att with ⟨res, k⟩
      cases res with
      | error e =>
        rw [webhookValue_runCall_error c ctx att e k hn2 hrc]
        exact ⟨fun _ => rfl, rfl⟩
      | ok r =>
        rw [webhookValue_runCall_ok c ctx att r k hn2 hrc]
        exact ⟨fun h => absurd rfl h, rfl⟩

/-- C9 witness: on a fresh block iterator whose transport always fails, the
erroring `Value` call leaves the iterator unchanged. -/
theorem value_error_leaves_iterator_unchanged_witness :
    (freshBlockIter.Value 0 attFailBL).iter = freshBlockIter :=
  (value_error_leaves_iterator_unchanged.1 freshBlockIter 0 attFailBL).1 (by decide)

/-- C10: for both services, every context and every parameter set, the `All`
factory returns the paginator in the fresh state — empty cursor, nil cached
response, the supplied params stored unmodified — whose `Next` immediately
reports more available; the params the first fetch would send are the
supplied ones with the `After` value replaced by the empty cursor.  `All`
itself takes no transport stream: it performs no HTTP request. -/
theorem all_returns_fresh_iterator :
    (∀ (s : BlockService) (ctx : Nat) (p : BlockListParams),
      (s.All ctx p).cursor = "" ∧ (s.All ctx p).response = none ∧
      (s.All ctx p).params = p ∧ (s.All ctx p).Next = true ∧
      ({ (s.All ctx p).params with After := (s.All ctx p).cursor } : BlockListParams) =
        { p with After := "" }) ∧
    (∀ (s : WebhookService) (ctx : Nat) (p : WebhookListParams),
      (s.All ctx p).cursor = "" ∧ (s.All ctx p).response = none ∧
      (s.All ctx p).params = p ∧ (s.All ctx p).Next = true ∧
      ({ (s.All ctx p).params with After := (s.All ctx p).cursor } : WebhookListParams) =
        { p with After := "" }) :=
  ⟨fun s ctx p => ⟨rfl, rfl, rfl, rfl, rfl⟩,
    fun s ctx p => ⟨rfl, rfl, rfl, rfl, rfl⟩⟩

/-- C4 counterexample: a request actually issued by the block paginator's
fetch (the first `Value` on a fresh iterator, with a transport that fails so
that all three attempts are issued) carries neither the user agent nor the
client identification headers — refuting "every HTTP request built by this
layer ... sets all four standard headers" at this concrete input. -/
theorem paging_request_lacks_standard_headers :
    (freshBlockIter.Value 0 attFailBL).requests =
      List.replicate 3 (mkPagingRequest "ep/blocks" "tok" [] 0) ∧
    (mkPagingRequest "ep/blocks" "tok" [] 0).getHeader "User-Agent" = none ∧
    (mkPagingRequest "ep/blocks" "tok" [] 0).getHeader "GoCardless-Client-Library" = none ∧
    (mkPagingRequest "ep/blocks" "tok" [] 0).getHeader "GoCardless-Client-Version" = none := by
  refine ⟨?_, rfl, rfl, rfl⟩
  decide

/-- C4 (amended): every request built by the service methods (via
`mkReadRequest` or `mkWriteRequest`, which every Create/Get/List/Disable/
Enable/BlockByRef/Retry method uses) sets all four standard headers —
bearer authorization, API version, the client identification pair, and the
user agent — and they remain set under any caller header overrides; the
requests issued by the paginators' fetch (`mkPagingRequest`) set only the
bearer authorization token and the API version string. -/
theorem standard_headers_on_service_requests :
    (∀ (method url token : String) (q : List (String × String)) (ctx : Nat)
        (ov : List (String × String)),
      ((mkReadRequest method url token q ctx ov).getHeader "Authorization").isSome = true ∧
      ((mkReadRequest method url token q ctx ov).getHeader "GoCardless-Version").isSome = true ∧
      ((mkReadRequest method url token q ctx ov).getHeader
        "GoCardless-Client-Library").isSome = true ∧
      ((mkReadRequest method url token q ctx ov).getHeader
        "GoCardless-Client-Version").isSome = true ∧
      ((mkReadRequest method url token q ctx ov).getHeader "User-Agent").isSome = true) ∧
    (∀ (method url token idem : String) (q : List (String × String)) (bk : Option String)
        (ctx : Nat) (ov : List (String × String)),
      ((mkWriteRequest method url token idem q bk ctx ov).getHeader
        "Authorization").isSome = true ∧
      ((mkWriteRequest method url token idem q bk ctx ov).getHeader
        "GoCardless-Version").isSome = true ∧
      ((mkWriteRequest method url token idem q bk ctx ov).getHeader
        "GoCardless-Client-Library").isSome = true ∧
      ((mkWriteRequest method url token idem q bk ctx ov).getHeader
        "GoCardless-Client-Version").isSome = true ∧
      ((mkWriteRequest method url token idem q bk ctx ov).getHeader
        "User-Agent").isSome = true) ∧
    (∀ (url token : String) (q : List (String × String)) (ctx : Nat),
      (mkPagingRequest url token q ctx).getHeader "Authorization" =
        some ("Bearer " ++ token) ∧
      (mkPagingRequest url token q ctx).getHeader "GoCardless-Version" =
        some "2015-07-06" ∧
      (mkPagingRequest url token q ctx).getHeader "GoCardless-Client-Library" = none ∧
      (mkPagingRequest url token q ctx).getHeader "GoCardless-Client-Version" = none ∧
      (mkPagingRequest url token q ctx).getHeader "User-Agent" = none) := by
  refine ⟨fun method url token q ctx ov => ?_, fun method url token idem q bk ctx ov => ?_,
    fun url token q ctx => ⟨rfl, rfl, rfl, rfl, rfl⟩⟩
  · exact ⟨headerGet_applyOverrides_isSome ov (baseHeaders token) "Authorization" rfl,
      headerGet_applyOverrides_isSome ov (baseHeaders token) "GoCardless-Version" rfl,
      headerGet_applyOverrides_isSome ov (baseHeaders token) "GoCardless-Client-Library" rfl,
      headerGet_applyOverrides_isSome ov (baseHeaders token) "GoCardless-Client-Version" rfl,
      headerGet_applyOverrides_isSome ov (baseHeaders token) "User-Agent" rfl⟩
  · exact ⟨headerGet_applyOverrides_isSome ov (writeHeaders token idem) "Authorization" rfl,
      headerGet_applyOverrides_isSome ov (writeHeaders token idem) "GoCardless-Version" rfl,
      headerGet_applyOverrides_isSome ov (writeHeaders token idem) "GoCardless-Client-Library" rfl,
      headerGet_applyOverrides_isSome ov (writeHeaders token idem)
        "GoCardless-Client-Version" rfl,
      headerGet_applyOverrides_isSome ov (writeHeaders token idem) "User-Agent" rfl⟩

/-- C8 (code bug): every request this layer builds keeps the background
context — the source calls `req.WithContext(ctx)` but discards the returned
request on every path (service methods and paginator fetches alike), so the
caller's cancellation context is never attached to the issued request and can
neither abort the in-flight attempt nor stop further retries.  The last
conjunct shows that `WithContext` itself would have attached the context had
its result been kept. -/
theorem caller_context_never_attached :
    (∀ (method url token : String) (q : List (String × String)) (ctx : Nat)
        (ov : List (String × String)),
      (mkReadRequest method url token q ctx ov).ctx = none) ∧
    (∀ (method url token idem : String) (q : List (String × String)) (bk : Option String)
        (ctx : Nat) (ov : List (String × String)),
      (mkWriteRequest method url token idem q bk ctx ov).ctx = none) ∧
    (∀ (url token : String) (q : List (String × String)) (ctx : Nat),
      (mkPagingRequest url token q ctx).ctx = none) ∧
    (∀ (s : BlockService) (ctx : Nat) (p : BlockCreateParams) (o : requestOptions)
        (genKey : String) (att : Nat → Attempt Block),
      (s.Create ctx p o genKey att).request.ctx = none) ∧
    (∀ (r : Request) (ctx : Nat), (r.withContext ctx).ctx = some ctx) :=
  ⟨fun _ _ _ _ _ _ => rfl, fun _ _ _ _ _ _ _ _ => rfl, fun _ _ _ _ => rfl,
    fun _ _ _ _ _ _ => rfl, fun _ _ => rfl⟩

theorem writeRequest_idem_header (method url token idem : String)
    (q : List (String × String)) (bk : Option String) (ctx : Nat)
    (ov : List (String × String)) (hov : ∀ kv, kv ∈ ov → ¬ ("Idempotency-Key" = kv.1)) :
    (mkWriteRequest method url token idem q bk ctx ov).getHeader "Idempotency-Key" =
      some idem := by
  show headerGet (applyOverrides (writeHeaders token idem) ov) "Idempotency-Key" = some idem
  rw [headerGet_applyOverrides_untouched ov (writeHeaders token idem) "Idempotency-Key" hov]
  exact headerGet_setHeader_same (setHeader (baseHeaders token) "Content-Type"
    "application/json") "Idempotency-Key" idem

/-- C7: for every write call (Create, Disable, Enable, BlockByRef, Retry),
when the caller supplies no idempotency key (and does not override the
`Idempotency-Key` header), the key generated for the call before the request
was built is the one carried in the request's `Idempotency-Key` header, and
the requests issued by the retry loop are all that one request — every
attempt of the call carries the identical key. -/
theorem idempotency_key_fresh_and_reused_across_attempts
    (s : BlockService) (ws : WebhookService) (ctx : Nat)
    (pC : BlockCreateParams) (pBR : BlockBlockByRefParams) (idA idB idC : String)
    (o : requestOptions) (genKey : String)
    (attB : Nat → Attempt Block) (attBR : Nat → Attempt BlockBlockByRefResult)
    (attW : Nat → Attempt Webhook)
    (hkey : o.idempotencyKey = "")
    (hov : ∀ kv, kv ∈ o.headers → ¬ ("Idempotency-Key" = kv.1)) :
    ((s.Create ctx pC o genKey attB).request.getHeader "Idempotency-Key" = some genKey ∧
      (s.Create ctx pC o genKey attB).requests =
        List.replicate (s.Create ctx pC o genKey attB).attemptsUsed
          (s.Create ctx pC o genKey attB).request) ∧
    ((s.Disable ctx idA o genKey attB).request.getHeader "Idempotency-Key" = some genKey ∧
      (s.Disable ctx idA o genKey attB).requests =
        List.replicate (s.Disable ctx idA o genKey attB).attemptsUsed
          (s.Disable ctx idA o genKey attB).request) ∧
    ((s.Enable ctx idB o genKey attB).request.getHeader "Idempotency-Key" = some genKey ∧
      (s.Enable ctx idB o genKey attB).requests =
        List.replicate (s.Enable ctx idB o genKey attB).attemptsUsed
          (s.Enable ctx idB o genKey attB).request) ∧
    ((s.BlockByRef ctx pBR o genKey attBR).request.getHeader "Idempotency-Key" =
        some genKey ∧
      (s.BlockByRef ctx pBR o genKey attBR).requests =
        List.replicate (s.BlockByRef ctx pBR o genKey attBR).attemptsUsed
          (s.BlockByRef ctx pBR o genKey attBR).request) ∧
    ((ws.Retry ctx idC o genKey attW).request.getHeader "Idempotency-Key" = some genKey ∧
      (ws.Retry ctx idC o genKey attW).requests =
        List.replicate (ws.Retry ctx idC o genKey attW).attemptsUsed
          (ws.Retry ctx idC o genKey attW).request) := by
  have hidem : (if o.idempotencyKey = "" then genKey else o.idempotencyKey) = genKey := by
    rw [hkey]
    rfl
  refine ⟨⟨?_, rfl⟩, ⟨?_, rfl⟩, ⟨?_, rfl⟩, ⟨?_, rfl⟩, ⟨?_, rfl⟩⟩
  · exact (writeRequest_idem_header "POST" (s.endpoint ++ "/blocks") s.token
      (if o.idempotencyKey = "" then genKey else o.idempotencyKey) [] (some "blocks") ctx
      o.headers hov).trans (congrArg some hidem)
  · exact (writeRequest_idem_header "POST"
      (s.endpoint ++ "/blocks/" ++ idA ++ "/actions/disable") s.token
      (if o.idempotencyKey = "" then genKey else o.idempotencyKey) [] none ctx
      o.headers hov).trans (congrArg some hidem)
  · exact (writeRequest_idem_header "POST"
      (s.endpoint ++ "/blocks/" ++ idB ++ "/actions/enable") s.token
      (if o.idempotencyKey = "" then genKey else o.idempotencyKey) [] none ctx
      o.headers hov).trans (congrArg some hidem)
  · exact (writeRequest_idem_header "POST" (s.endpoint ++ "/block_by_ref") s.token
      (if o.idempotencyKey = "" then genKey else o.idempotencyKey) [] (some "data") ctx
      o.headers hov).trans (congrArg some hidem)
  · exact (writeRequest_idem_header "POST"
      (ws.endpoint ++ "/webhooks/" ++ idC ++ "/actions/retry") ws.token
      (if o.idempotencyKey = "" then genKey else o.idempotencyKey) [] none ctx
      o.headers hov).trans (congrArg some hidem)

/-- C7 witness: a concrete Create call with the default options (no key
supplied) carries the freshly generated key in its request header. -/
theorem idempotency_key_fresh_and_reused_across_attempts_witness :
    (blockSvcFix.Create 0 blockCreateParamsZero defaultRequestOptions "fresh-key-1"
      attApiB).request.getHeader "Idempotency-Key" = some "fresh-key-1" :=
  (idempotency_key_fresh_and_reused_across_attempts blockSvcFix webhookSvcFix 0
    blockCreateParamsZero blockByRefParamsZero "a" "b" "c" defaultRequestOptions
    "fresh-key-1" attApiB attApiBR attApiW rfl
    (fun kv hkv => absurd hkv (List.not_mem_nil kv))).1.1

theorem attemptOnce_200_empty {α : Type} :
    attemptOnce (Attempt.response 200 (Except.ok (⟨none, none⟩ : Envelope α))) =
      Except.ok ⟨none, none⟩ := by
  simp [attemptOnce, responseErr]

/-- C1: for every service call (Create, Get, List, Disable, Enable,
BlockByRef, Retry, and both paginators' Value), when the decoded response
envelope has its error variant populated — here on attempt `k`, after `k`
retriable failures — the API-level error is surfaced immediately: the call
returns it and exactly `k + 1` round trips were issued, no matter how many
retry attempts remained (`k` may be far below the retry budget). -/
theorem api_error_surfaced_immediately_not_retried
    (s : BlockService) (ws : WebhookService) (ctx k : Nat) (e : APIError)
    (o : requestOptions) (genKey idA idB idC idD : String)
    (pC : BlockCreateParams) (pL : BlockListParams) (pBR : BlockBlockByRefParams)
    (pWL : WebhookListParams)
    (attB : Nat → Attempt Block) (attBL : Nat → Attempt BlockListResult)
    (attW : Nat → Attempt Webhook) (attWL : Nat → Attempt WebhookListResult)
    (attBR : Nat → Attempt BlockBlockByRefResult)
    (cb : BlockListPagingIterator) (cw : WebhookListPagingIterator)
    (hk : k < o.retries) (hk3 : k < 3)
    (hcb : cb.Next = true) (hcw : cw.Next = true)
    (hB0 : ∀ j, j < k → retriable (attB j) = true)
    (hB1 : attemptOnce (attB k) = Except.error (GoErr.api e))
    (hBL0 : ∀ j, j < k → retriable (attBL j) = true)
    (hBL1 : attemptOnce (attBL k) = Except.error (GoErr.api e))
    (hW0 : ∀ j, j < k → retriable (attW j) = true)
    (hW1 : attemptOnce (attW k) = Except.error (GoErr.api e))
    (hWL0 : ∀ j, j < k → retriable (attWL j) = true)
    (hWL1 : attemptOnce (attWL k) = Except.error (GoErr.api e))
    (hBR0 : ∀ j, j < k → retriable (attBR j) = true)
    (hBR1 : attemptOnce (attBR k) = Except.error (GoErr.api e)) :
    ((s.Create ctx pC o genKey attB).result = Except.error (GoErr.api e) ∧
      (s.Create ctx pC o genKey attB).attemptsUsed = k + 1) ∧
    ((s.Get ctx idA o attB).result = Except.error (GoErr.api e) ∧
      (s.Get ctx idA o attB).attemptsUsed = k + 1) ∧
    ((s.List ctx pL o attBL).result = Except.error (GoErr.api e) ∧
      (s.List ctx pL o attBL).attemptsUsed = k + 1) ∧
    ((s.Disable ctx idA o genKey attB).result = Except.error (GoErr.api e) ∧
      (s.Disable ctx idA o genKey attB).attemptsUsed = k + 1) ∧
    ((s.Enable ctx idB o genKey attB).result = Except.error (GoErr.api e) ∧
      (s.Enable ctx idB o genKey attB).attemptsUsed = k + 1) ∧
    ((s.BlockByRef ctx pBR o genKey attBR).result = Except.error (GoErr.api e) ∧
      (s.BlockByRef ctx pBR o genKey attBR).attemptsUsed = k + 1) ∧
    ((ws.List ctx pWL o attWL).result = Except.error (GoErr.api e) ∧
      (ws.List ctx pWL o attWL).attemptsUsed = k + 1) ∧
    ((ws.Get ctx idC o attW).result = Except.error (GoErr.api e) ∧
      (ws.Get ctx idC o attW).attemptsUsed = k + 1) ∧
    ((ws.Retry ctx idD o genKey attW).result = Except.error (GoErr.api e) ∧
      (ws.Retry ctx idD o genKey attW).attemptsUsed = k + 1) ∧
    ((cb.Value ctx attBL).err = some (GoErr.api e) ∧
      (cb.Value ctx attBL).requests.length = k + 1) ∧
    ((cw.Value ctx attWL).err = some (GoErr.api e) ∧
      (cw.Value ctx attWL).requests.length = k + 1) := by
  have hB := runCall_api attB o.retries k e hB0 hB1 hk
  have hBL := runCall_api attBL o.retries k e hBL0 hBL1 hk
  have hW := runCall_api attW o.retries k e hW0 hW1 hk
  have hWL := runCall_api attWL o.retries k e hWL0 hWL1 hk
  have hBR := runCall_api attBR o.retries k e hBR0 hBR1 hk
  have hcbV := blockValue_runCall_error cb ctx attBL (GoErr.api e) (k + 1) hcb
    (runCall_api attBL 3 k e hBL0 hBL1 hk3)
  have hcwV := webhookValue_runCall_error cw ctx attWL (GoErr.api e) (k + 1) hcw
    (runCall_api attWL 3 k e hWL0 hWL1 hk3)
  exact ⟨⟨congrArg Prod.fst hB, congrArg Prod.snd hB⟩,
    ⟨congrArg Prod.fst hB, congrArg Prod.snd hB⟩,
    ⟨congrArg Prod.fst hBL, congrArg Prod.snd hBL⟩,
    ⟨congrArg Prod.fst hB, congrArg Prod.snd hB⟩,
    ⟨congrArg Prod.fst hB, congrArg Prod.snd hB⟩,
    ⟨congrArg Prod.fst hBR, congrArg Prod.snd hBR⟩,
    ⟨congrArg Prod.fst hWL, congrArg Prod.snd hWL⟩,
    ⟨congrArg Prod.fst hW, congrArg Prod.snd hW⟩,
    ⟨congrArg Prod.fst hW, congrArg Prod.snd hW⟩,
    ⟨congrArg PageFetch.err hcbV, by rw [hcbV]; simp⟩,
    ⟨congrArg PageFetch.err hcwV, by rw [hcwV]; simp⟩⟩

/-- C1 witness: with the default three-attempt budget and an envelope error
arriving on the very first attempt, the concrete Create call returns the API
error after exactly one round trip. -/
theorem api_error_surfaced_immediately_not_retried_witness :
    (blockSvcFix.Create 0 blockCreateParamsZero defaultRequestOptions "gk" attApiB).result =
      Except.error (GoErr.api apiErrFix) ∧
    (blockSvcFix.Create 0 blockCreateParamsZero defaultRequestOptions "gk"
      attApiB).attemptsUsed = 1 :=
  (api_error_surfaced_immediately_not_retried blockSvcFix webhookSvcFix 0 0 apiErrFix
    defaultRequestOptions "gk" "a" "b" "c" "d" blockCreateParamsZero blockListParamsZero
    blockByRefParamsZero webhookListParamsZero attApiB attApiBL attApiW attApiWL attApiBR
    freshBlockIter freshWebhookIter (by decide) (by decide) rfl rfl
    (fun j hj => absurd hj (Nat.not_lt_zero j)) rfl
    (fun j hj => absurd hj (Nat.not_lt_zero j)) rfl
    (fun j hj => absurd hj (Nat.not_lt_zero j)) rfl
    (fun j hj => absurd hj (Nat.not_lt_zero j)) rfl
    (fun j hj => absurd hj (Nat.not_lt_zero j)) rfl).1

/-- C5: for every call, when the decoded envelope's error variant is
populated on the first attempt of a response whose HTTP status is 200, the
call returns that API error and not a success payload — even if the envelope
carried a payload alongside the error. -/
theorem api_error_beats_http_200
    (s : BlockService) (ws : WebhookService) (ctx : Nat) (e : APIError)
    (o : requestOptions) (genKey idA idB idC idD : String)
    (pC : BlockCreateParams) (pL : BlockListParams) (pBR : BlockBlockByRefParams)
    (pWL : WebhookListParams)
    (envB : Envelope Block) (envBL : Envelope BlockListResult) (envW : Envelope Webhook)
    (envWL : Envelope WebhookListResult) (envBR : Envelope BlockBlockByRefResult)
    (attB : Nat → Attempt Block) (attBL : Nat → Attempt BlockListResult)
    (attW : Nat → Attempt Webhook) (attWL : Nat → Attempt WebhookListResult)
    (attBR : Nat → Attempt BlockBlockByRefResult)
    (cb : BlockListPagingIterator) (cw : WebhookListPagingIterator)
    (hr : 1 ≤ o.retries) (hcb : cb.Next = true) (hcw : cw.Next = true)
    (hEB : envB.err = some e) (hAB : attB 0 = Attempt.response 200 (Except.ok envB))
    (hEBL : envBL.err = some e) (hABL : attBL 0 = Attempt.response 200 (Except.ok envBL))
    (hEW : envW.err = some e) (hAW : attW 0 = Attempt.response 200 (Except.ok envW))
    (hEWL : envWL.err = some e) (hAWL : attWL 0 = Attempt.response 200 (Except.ok envWL))
    (hEBR : envBR.err = some e) (hABR : attBR 0 = Attempt.response 200 (Except.ok envBR)) :
    (s.Create ctx pC o genKey attB).result = Except.error (GoErr.api e) ∧
    (s.Get ctx idA o attB).result = Except.error (GoErr.api e) ∧
    (s.List ctx pL o attBL).result = Except.error (GoErr.api e) ∧
    (s.Disable ctx idA o genKey attB).result = Except.error (GoErr.api e) ∧
    (s.Enable ctx idB o genKey attB).result = Except.error (GoErr.api e) ∧
    (s.BlockByRef ctx pBR o genKey attBR).result = Except.error (GoErr.api e) ∧
    (ws.List ctx pWL o attWL).result = Except.error (GoErr.api e) ∧
    (ws.Get ctx idC o attW).result = Except.error (GoErr.api e) ∧
    (ws.Retry ctx idD o genKey attW).result = Except.error (GoErr.api e) ∧
    ((cb.Value ctx attBL).err = some (GoErr.api e) ∧ (cb.Value ctx attBL).page = none) ∧
    ((cw.Value ctx attWL).err = some (GoErr.api e) ∧ (cw.Value ctx attWL).page = none) := by
  have hB1 : attemptOnce (attB 0) = Except.error (GoErr.api e) := by
    rw [hAB]; exact attemptOnce_200_apiErr envB e hEB
  have hBL1 : attemptOnce (attBL 0) = Except.error (GoErr.api e) := by
    rw [hABL]; exact attemptOnce_200_apiErr envBL e hEBL
  have hW1 : attemptOnce (attW 0) = Except.error (GoErr.api e) := by
    rw [hAW]; exact attemptOnce_200_apiErr envW e hEW
  have hWL1 : attemptOnce (attWL 0) = Except.error (GoErr.api e) := by
    rw [hAWL]; exact attemptOnce_200_apiErr envWL e hEWL
  have hBR1 : attemptOnce (attBR 0) = Except.error (GoErr.api e) := by
    rw [hABR]; exact attemptOnce_200_apiErr envBR e hEBR
  have hvac : ∀ {α : Type} (att : Nat → Attempt α), ∀ j, j < 0 → retriable (att j) = true :=
    fun att j hj => absurd hj (Nat.not_lt_zero j)
  have hB := runCall_api attB o.retries 0 e (hvac attB) hB1 hr
  have hBL := runCall_api attBL o.retries 0 e (hvac attBL) hBL1 hr
  have hW := runCall_api attW o.retries 0 e (hvac attW) hW1 hr
  have hWL := runCall_api attWL o.retries 0 e (hvac attWL) hWL1 hr
  have hBR := runCall_api attBR o.retries 0 e (hvac attBR) hBR1 hr
  have hcbV := blockValue_runCall_error cb ctx attBL (GoErr.api e) 1 hcb
    (runCall_api attBL 3 0 e (hvac attBL) hBL1 (by omega))
  have hcwV := webhookValue_runCall_error cw ctx attWL (GoErr.api e) 1 hcw
    (runCall_api attWL 3 0 e (hvac attWL) hWL1 (by omega))
  exact ⟨congrArg Prod.fst hB, congrArg Prod.fst hB, congrArg Prod.fst hBL,
    congrArg Prod.fst hB, congrArg Prod.fst hB, congrArg Prod.fst hBR,
    congrArg Prod.fst hWL, congrArg Prod.fst hW, congrArg Prod.fst hW,
    ⟨congrArg PageFetch.err hcbV, congrArg PageFetch.page hcbV⟩,
    ⟨congrArg PageFetch.err hcwV, congrArg PageFetch.page hcwV⟩⟩

/-- C5 witness: a 200 response whose envelope carries both an error and a
payload still fails the concrete Create call with the API error. -/
theorem api_error_beats_http_200_witness :
    (blockSvcFix.Create 0 blockCreateParamsZero defaultRequestOptions "gk"
      attApiPayB).result = Except.error (GoErr.api apiErrFix) :=
  (api_error_beats_http_200 blockSvcFix webhookSvcFix 0 apiErrFix defaultRequestOptions
    "gk" "a" "b" "c" "d" blockCreateParamsZero blockListParamsZero blockByRefParamsZero
    webhookListParamsZero ⟨some apiErrFix, some blockZero⟩ ⟨some apiErrFix, some blockListResFix⟩
    ⟨some apiErrFix, some webhookZero⟩ ⟨some apiErrFix, some webhookListResFix⟩
    ⟨some apiErrFix, some byRefResFix⟩ attApiPayB attApiPayBL attApiPayW attApiPayWL
    attApiPayBR freshBlockIter freshWebhookIter (by decide) rfl rfl
    rfl rfl rfl rfl rfl rfl rfl rfl rfl rfl).1

/-- C6: for every call, when the decoded envelope has neither its error
variant nor its payload variant populated (here on a successful first
attempt with HTTP 200), the call fails with the distinct missing-result
classification after exactly one round trip — the failure is never retried
even though retry attempts remained. -/
theorem missing_result_never_retried
    (s : BlockService) (ws : WebhookService) (ctx : Nat)
    (o : requestOptions) (genKey idA idB idC idD : String)
    (pC : BlockCreateParams) (pL : BlockListParams) (pBR : BlockBlockByRefParams)
    (pWL : WebhookListParams)
    (attB : Nat → Attempt Block) (attBL : Nat → Attempt BlockListResult)
    (attW : Nat → Attempt Webhook) (attWL : Nat → Attempt WebhookListResult)
    (attBR : Nat → Attempt BlockBlockByRefResult)
    (cb : BlockListPagingIterator) (cw : WebhookListPagingIterator)
    (hr : 1 ≤ o.retries) (hcb : cb.Next = true) (hcw : cw.Next = true)
    (hAB : attB 0 = Attempt.response 200 (Except.ok ⟨none, none⟩))
    (hABL : attBL 0 = Attempt.response 200 (Except.ok ⟨none, none⟩))
    (hAW : attW 0 = Attempt.response 200 (Except.ok ⟨none, none⟩))
    (hAWL : attWL 0 = Attempt.response 200 (Except.ok ⟨none, none⟩))
    (hABR : attBR 0 = Attempt.response 200 (Except.ok ⟨none, none⟩)) :
    ((s.Create ctx pC o genKey attB).result = Except.error GoErr.missingResult ∧
      (s.Create ctx pC o genKey attB).attemptsUsed = 1) ∧
    ((s.Get ctx idA o attB).result = Except.error GoErr.missingResult ∧
      (s.Get ctx idA o attB).attemptsUsed = 1) ∧
    ((s.List ctx pL o attBL).result = Except.error GoErr.missingResult ∧
      (s.List ctx pL o attBL).attemptsUsed = 1) ∧
    ((s.Disable ctx idA o genKey attB).result = Except.error GoErr.missingResult ∧
      (s.Disable ctx idA o genKey attB).attemptsUsed = 1) ∧
    ((s.Enable ctx idB o genKey attB).result = Except.error GoErr.missingResult ∧
      (s.Enable ctx idB o genKey attB).attemptsUsed = 1) ∧
    ((s.BlockByRef ctx pBR o genKey attBR).result = Except.error GoErr.missingResult ∧
      (s.BlockByRef ctx pBR o genKey attBR).attemptsUsed = 1) ∧
    ((ws.List ctx pWL o attWL).result = Except.error GoErr.missingResult ∧
      (ws.List ctx pWL o attWL).attemptsUsed = 1) ∧
    ((ws.Get ctx idC o attW).result = Except.error GoErr.missingResult ∧
      (ws.Get ctx idC o attW).attemptsUsed = 1) ∧
    ((ws.Retry ctx idD o genKey attW).result = Except.error GoErr.missingResult ∧
      (ws.Retry ctx idD o genKey attW).attemptsUsed = 1) ∧
    ((cb.Value ctx attBL).err = some GoErr.missingResult ∧
      (cb.Value ctx attBL).requests.length = 1) ∧
    ((cw.Value ctx attWL).err = some GoErr.missingResult ∧
      (cw.Value ctx attWL).requests.length = 1) := by
  have hB1 : attemptOnce (attB 0) = Except.ok ⟨none, none⟩ := by
    rw [hAB]; exact attemptOnce_200_empty
  have hBL1 : attemptOnce (attBL 0) = Except.ok ⟨none, none⟩ := by
    rw [hABL]; exact attemptOnce_200_empty
  have hW1 : attemptOnce (attW 0) = Except.ok ⟨none, none⟩ := by
    rw [hAW]; exact attemptOnce_200_empty
  have hWL1 : attemptOnce (attWL 0) = Except.ok ⟨none, none⟩ := by
    rw [hAWL]; exact attemptOnce_200_empty
  have hBR1 : attemptOnce (attBR 0) = Except.ok ⟨none, none⟩ := by
    rw [hABR]; exact attemptOnce_200_empty
  have hB := runCall_missing_first attB o.retries hB1 hr
  have hBL := runCall_missing_first attBL o.retries hBL1 hr
  have hW := runCall_missing_first attW o.retries hW1 hr
  have hWL := runCall_missing_first attWL o.retries hWL1 hr
  have hBR := runCall_missing_first attBR o.retries hBR1 hr
  have hcbV := blockValue_runCall_error cb ctx attBL GoErr.missingResult 1 hcb
    (runCall_missing_first attBL 3 hBL1 (by omega))
  have hcwV := webhookValue_runCall_error cw ctx attWL GoErr.missingResult 1 hcw
    (runCall_missing_first attWL 3 hWL1 (by omega))
  exact ⟨⟨congrArg Prod.fst hB, congrArg Prod.snd hB⟩,
    ⟨congrArg Prod.fst hB, congrArg Prod.snd hB⟩,
    ⟨congrArg Prod.fst hBL, congrArg Prod.snd hBL⟩,
    ⟨congrArg Prod.fst hB, congrArg Prod.snd hB⟩,
    ⟨congrArg Prod.fst hB, congrArg Prod.snd hB⟩,
    ⟨congrArg Prod.fst hBR, congrArg Prod.snd hBR⟩,
    ⟨congrArg Prod.fst hWL, congrArg Prod.snd hWL⟩,
    ⟨congrArg Prod.fst hW, congrArg Prod.snd hW⟩,
    ⟨congrArg Prod.fst hW, congrArg Prod.snd hW⟩,
    ⟨congrArg PageFetch.err hcbV, by rw [hcbV]; simp⟩,
    ⟨congrArg PageFetch.err hcwV, by rw [hcwV]; simp⟩⟩

/-- C6 witness: a 200 response decoding to an envelope with neither variant
populated fails the concrete Create call with the missing-result error after
one round trip. -/
theorem missing_result_never_retried_witness :
    (blockSvcFix.Create 0 blockCreateParamsZero defaultRequestOptions "gk"
      attEmptyB).result = Except.error GoErr.missingResult ∧
    (blockSvcFix.Create 0 blockCreateParamsZero defaultRequestOptions "gk"
      attEmptyB).attemptsUsed = 1 :=
  (missing_result_never_retried blockSvcFix webhookSvcFix 0 defaultRequestOptions
    "gk" "a" "b" "c" "d" blockCreateParamsZero blockListParamsZero blockByRefParamsZero
    webhookListParamsZero attEmptyB attEmptyBL attEmptyW attEmptyWL attEmptyBR
    freshBlockIter freshWebhookIter (by decide) rfl rfl rfl rfl rfl rfl rfl).1

end Gocardless
